import Mathlib

/-!
Shallow embedding of pymc_marketing/mmm/components/adstock.py.

The module defines an abstract base class AdstockTransformation (storing
l_max, normalize, mode and forwarding priors/prefix to the base
Transformation constructor), three concrete subclasses (GeometricAdstock,
DelayedAdstock, WeibullAdstock) that each delegate their computation to a
routine of pymc_marketing.mmm.transformers, a name-to-class registry
ADSTOCK_TRANSFORMATIONS, and a dispatch helper _get_adstock_function.

Conventions of the embedding:
- Python methods are translated in state-passing style: a method returns
  the pair (self after the call, result).  Method bodies in the source
  contain no attribute assignment, so the translated bodies return the
  incoming self unchanged; this is the faithful translation, not an
  assumption.
- Fallible Python operations (dict-miss raise, keyword-binding errors of
  a constructor call, numpy out-of-bounds item assignment) return Except.
- warnings.warn is modelled as a Bool component of the result: true when
  the call emitted the DeprecationWarning.
- numpy float64 scalars in sample_curve are carried by Rat: the claims
  about sample_curve concern only which entries are the stored amount and
  which are zero, never float arithmetic.
-/

/-- Modelled from the spec: the convolution-mode enumeration ConvMode is
imported from pymc_marketing.mmm.transformers, which is not under src/.
The spec describes it as "a convolution-mode enumeration ... whether the
decay kernel is applied looking forward or backward relative to the time
step"; its members are used here only as opaque stored values, with
After being the default of the constructors in this module. -/
inductive ConvMode where
  | After
  | Before
  | Overlap
deriving DecidableEq

/-- Modelled from the spec: the WeibullType enumeration is imported from
pymc_marketing.mmm.transformers, which is not under src/.  Its members
PDF and CDF select the shape of the Weibull decay; they are used here
only as opaque stored values, with PDF the default of
WeibullAdstock.__init__. -/
inductive WeibullType where
  | PDF
  | CDF
deriving DecidableEq

/-- A prior-distribution descriptor: a distribution family name together
with its numeric hyperparameters, as in the default_priors dictionaries
of the source (for example dist "Beta" with kwargs alpha = 1, beta = 3). -/
structure PriorSpec where
  dist : String
  kwargs : List (String × Int)
deriving DecidableEq

/-- A mapping from parameter name to prior descriptor, as used for the
default_priors class attributes and the priors constructor argument. -/
abbrev PriorMapping : Type := List (String × PriorSpec)

instance {ε α : Type} [DecidableEq ε] [DecidableEq α] :
    DecidableEq (Except ε α) := fun x y =>
  match x, y with
  | .error a, .error b =>
      if h : a = b then isTrue (h ▸ rfl)
      else isFalse (fun hc => h (Except.error.inj hc))
  | .error _, .ok _ => isFalse (fun hc => Except.noConfusion hc)
  | .ok _, .error _ => isFalse (fun hc => Except.noConfusion hc)
  | .ok a, .ok b =>
      if h : a = b then isTrue (h ▸ rfl)
      else isFalse (fun hc => h (Except.ok.inj hc))

/-- Instance data stored on an AdstockTransformation object by the
__init__ of the source (lines 82-94): l_max, normalize and mode are
assigned directly; priors and the prefix override are forwarded to the
base Transformation constructor (pymc_marketing.mmm.components.base, not
under src/), which per the spec stores the prior mapping on the
descriptor; the embedding stores both arguments as given.  The Python
field named prefix is called prefix_ because prefix is a Lean keyword. -/
structure AdstockTransformation where
  l_max : Nat
  normalize : Bool
  mode : ConvMode
  priors : Option PriorMapping
  prefix_ : Option String
deriving DecidableEq

/-- AdstockTransformation.__init__ (source lines 82-94): stores l_max,
normalize and mode on self and calls super().__init__(priors, prefix).
Default values follow the signature: normalize = True, mode =
ConvMode.After, priors = None, prefix = None. -/
def AdstockTransformation.init (l_max : Nat) (normalize : Bool := true)
    (mode : ConvMode := ConvMode.After) (priors : Option PriorMapping := none)
    ( prefix_ : Option String := none) : AdstockTransformation :=
  { l_max := l_max, normalize := normalize, mode := mode,
    priors := priors, prefix_ := prefix_ }

/-- GeometricAdstock (source lines 132-161): inherits the base __init__
unchanged, so its instance data is exactly that of the base class. -/
structure GeometricAdstock extends AdstockTransformation
deriving DecidableEq

/-- DelayedAdstock (source lines 164-201): inherits the base __init__
unchanged, so its instance data is exactly that of the base class. -/
structure DelayedAdstock extends AdstockTransformation
deriving DecidableEq

/-- WeibullAdstock (source lines 204-256): its __init__ additionally
stores kind (default WeibullType.PDF) before delegating the remaining
arguments to the base __init__. -/
structure WeibullAdstock extends AdstockTransformation where
  kind : WeibullType
deriving DecidableEq

/-- WeibullAdstock.__init__ (source lines 228-241): stores kind and calls
super().__init__(l_max=l_max, normalize=normalize, mode=mode,
priors=priors, prefix=prefix). -/
def WeibullAdstock.init (l_max : Nat) (normalize : Bool := true)
    (kind : WeibullType := WeibullType.PDF) (mode : ConvMode := ConvMode.After)
    (priors : Option PriorMapping := none) ( prefix_ : Option String := none) :
    WeibullAdstock :=
  { toAdstockTransformation :=
      AdstockTransformation.init l_max normalize mode priors prefix_,
    kind := kind }

/-- Modelled from the spec: the signatures of the three transformer
routines of pymc_marketing.mmm.transformers (not under src/) to which the
concrete classes delegate.  The spec says the computational work
(convolution) "is delegated entirely to the underlying
numerical/probabilistic framework"; the routines are therefore kept
abstract, as fields of this record over an arbitrary tensor type T.
Keyword arguments are encoded positionally:
geometric_adstock x alpha l_max normalize mode;
delayed_adstock x alpha theta l_max normalize mode;
weibull_adstock x lam k l_max mode type. -/
structure TransformerLib (T : Type) where
  geometric_adstock : T → T → Nat → Bool → ConvMode → T
  delayed_adstock : T → T → T → Nat → Bool → ConvMode → T
  weibull_adstock : T → T → T → Nat → ConvMode → WeibullType → T

/-- GeometricAdstock.function (source lines 156-159): returns
geometric_adstock(x, alpha=alpha, l_max=self.l_max,
normalize=self.normalize, mode=self.mode).  State-passing translation:
the body assigns no attribute, so self is returned unchanged. -/
def GeometricAdstock.function {T : Type} (lib : TransformerLib T)
    (self : GeometricAdstock) (x alpha : T) : GeometricAdstock × T :=
  (self, lib.geometric_adstock x alpha self.l_max self.normalize self.mode)

/-- DelayedAdstock.function (source lines 188-196): returns
delayed_adstock(x, alpha=alpha, theta=theta, l_max=self.l_max,
normalize=self.normalize, mode=self.mode). -/
def DelayedAdstock.function {T : Type} (lib : TransformerLib T)
    (self : DelayedAdstock) (x alpha theta : T) : DelayedAdstock × T :=
  (self,
    lib.delayed_adstock x alpha theta self.l_max self.normalize self.mode)

/-- WeibullAdstock.function (source lines 243-251): returns
weibull_adstock(x=x, lam=lam, k=k, l_max=self.l_max, mode=self.mode,
type=self.kind). -/
def WeibullAdstock.function {T : Type} (lib : TransformerLib T)
    (self : WeibullAdstock) (x lam k : T) : WeibullAdstock × T :=
  (self, lib.weibull_adstock x lam k self.l_max self.mode self.kind)

/-- The parameter names of GeometricAdstock.function after self and x,
transcribed from the signature def function(self, x, alpha) at source
line 156. -/
def GeometricAdstock.function_params : List String := ["alpha"]

/-- The parameter names of DelayedAdstock.function after self and x,
transcribed from the signature def function(self, x, alpha, theta) at
source line 188. -/
def DelayedAdstock.function_params : List String := ["alpha", "theta"]

/-- The parameter names of WeibullAdstock.function after self and x,
transcribed from the signature def function(self, x, lam, k) at source
line 243. -/
def WeibullAdstock.function_params : List String := ["lam", "k"]

/-- GeometricAdstock.default_priors (source line 161). -/
def GeometricAdstock.default_priors : PriorMapping :=
  [("alpha", { dist := "Beta", kwargs := [("alpha", 1), ("beta", 3)] })]

/-- DelayedAdstock.default_priors (source lines 198-201). -/
def DelayedAdstock.default_priors : PriorMapping :=
  [("alpha", { dist := "Beta", kwargs := [("alpha", 1), ("beta", 3)] }),
   ("theta", { dist := "HalfNormal", kwargs := [("sigma", 1)] })]

/-- WeibullAdstock.default_priors (source lines 253-256). -/
def WeibullAdstock.default_priors : PriorMapping :=
  [("lam", { dist := "HalfNormal", kwargs := [("sigma", 1)] }),
   ("k", { dist := "HalfNormal", kwargs := [("sigma", 1)] })]

/-- The class attribute lookup_name of GeometricAdstock (source line 154). -/
def GeometricAdstock.lookup_name : String := "geometric"

/-- The class attribute lookup_name of DelayedAdstock (source line 186). -/
def DelayedAdstock.lookup_name : String := "delayed"

/-- The class attribute lookup_name of WeibullAdstock (source line 226). -/
def WeibullAdstock.lookup_name : String := "weibull"

/-- A Python class object of this module, as stored in the
ADSTOCK_TRANSFORMATIONS registry: one of the three concrete adstock
classes. -/
inductive AdstockClass where
  | GeometricAdstock
  | DelayedAdstock
  | WeibullAdstock
deriving DecidableEq

/-- The lookup_name class attribute read off a class object, dispatching
to the per-class constants above. -/
def AdstockClass.lookup_name : AdstockClass → String
  | .GeometricAdstock => GeometricAdstock.lookup_name
  | .DelayedAdstock => DelayedAdstock.lookup_name
  | .WeibullAdstock => WeibullAdstock.lookup_name

/-- The ADSTOCK_TRANSFORMATIONS registry (source lines 259-262): the dict
comprehension over the class list, keyed by each class object by its own
lookup_name.  Dicts with distinct keys are embedded as association
lists. -/
def ADSTOCK_TRANSFORMATIONS : List (String × AdstockClass) :=
  [AdstockClass.GeometricAdstock, AdstockClass.DelayedAdstock,
   AdstockClass.WeibullAdstock].map (fun cls => (cls.lookup_name, cls))

/-- An instance of some concrete adstock class, tagged by its class. -/
inductive AdstockInstance where
  | geometric (self : GeometricAdstock)
  | delayed (self : DelayedAdstock)
  | weibull (self : WeibullAdstock)
deriving DecidableEq

/-- The class an instance belongs to. -/
def AdstockInstance.classOf : AdstockInstance → AdstockClass
  | .geometric _ => .GeometricAdstock
  | .delayed _ => .DelayedAdstock
  | .weibull _ => .WeibullAdstock

/-- A Python exception raised by code modelled here: the ValueError of
_get_adstock_function, the TypeError of Python keyword binding when a
constructor call has a missing or unexpected keyword, and the IndexError
of a numpy out-of-bounds item assignment. -/
inductive PyError where
  | valueError (msg : String)
  | typeError (msg : String)
  | indexError (msg : String)
deriving DecidableEq

/-- The **kwargs dictionary accepted by _get_adstock_function, restricted
to the keyword names of the constructors of this module.  An outer none
means the key is absent from the dict; the inner value carries the
argument (for priors and prefix the argument itself is optional, hence
the nested Option). -/
structure Kwargs where
  l_max : Option Nat := none
  normalize : Option Bool := none
  mode : Option ConvMode := none
  kind : Option WeibullType := none
  priors : Option (Option PriorMapping) := none
  prefix_ : Option (Option String) := none
deriving DecidableEq

/-- Python truthiness of the kwargs dict: if kwargs: is true exactly when
the dict is non-empty, i.e. some key is present. -/
def Kwargs.isEmpty (kw : Kwargs) : Bool :=
  kw.l_max.isNone && kw.normalize.isNone && kw.mode.isNone &&
    kw.kind.isNone && kw.priors.isNone && kw.prefix_.isNone

/-- Python keyword binding of cls(**kwargs) against the inherited base
signature __init__(self, l_max, normalize=True, mode=ConvMode.After,
priors=None, prefix=None): the keyword kind is not a parameter and raises
TypeError, l_max is required, and each absent keyword takes the default
of the signature. -/
def AdstockTransformation.bindInit (kw : Kwargs) :
    Except PyError AdstockTransformation :=
  if kw.kind.isSome then
    .error (.typeError ("unexpected keyword argument kind"))
  else
    match kw.l_max with
    | none => .error (.typeError ("missing required argument l_max"))
    | some l =>
        .ok (AdstockTransformation.init l (kw.normalize.getD true)
          (kw.mode.getD ConvMode.After) ((kw.priors.getD none))
          ((kw.prefix_.getD none)))

/-- Python keyword binding of WeibullAdstock(**kwargs) against
__init__(self, l_max, normalize=True, kind=WeibullType.PDF,
mode=ConvMode.After, priors=None, prefix=None): every key of Kwargs is a
parameter; l_max is required. -/
def WeibullAdstock.bindInit (kw : Kwargs) : Except PyError WeibullAdstock :=
  match kw.l_max with
  | none => .error (.typeError ("missing required argument l_max"))
  | some l =>
      .ok (WeibullAdstock.init l (kw.normalize.getD true)
        (kw.kind.getD WeibullType.PDF) (kw.mode.getD ConvMode.After)
        ((kw.priors.getD none)) ((kw.prefix_.getD none)))

/-- The constructor call cls(**kwargs) for a class object of the
registry: GeometricAdstock and DelayedAdstock bind against the inherited
base signature; WeibullAdstock binds against its own. -/
def AdstockClass.construct : AdstockClass → Kwargs → Except PyError AdstockInstance
  | .GeometricAdstock, kw =>
      (AdstockTransformation.bindInit kw).map
        (fun t => AdstockInstance.geometric { toAdstockTransformation := t })
  | .DelayedAdstock, kw =>
      (AdstockTransformation.bindInit kw).map
        (fun t => AdstockInstance.delayed { toAdstockTransformation := t })
  | .WeibullAdstock, kw =>
      (WeibullAdstock.bindInit kw).map AdstockInstance.weibull

/-- The function argument of _get_adstock_function, per its annotation
str | AdstockTransformation. -/
inductive StrOrAdstock where
  | str (s : String)
  | adstock (t : AdstockInstance)
deriving DecidableEq

/-- The single quote character of a Python repr of a string. -/
def pyQuote : String := String.singleton (Char.ofNat 39)

/-- Python repr of a str: the text between single quotes. -/
def pyStrRepr (s : String) : String := pyQuote ++ s ++ pyQuote

/-- Python str of a list of str, as interpolated by the f-string of the
ValueError message: reprs of the elements, comma-and-space separated,
between square brackets. -/
def pyListRepr (xs : List String) : String :=
  "[" ++ String.intercalate (", ") (xs.map pyStrRepr) ++ "]"

/-- The message of the ValueError raised at source lines 274-276. -/
def unknownAdstockMsg (s : String) : String :=
  "Unknown adstock function: " ++ s ++ ". Choose from " ++
    pyListRepr (ADSTOCK_TRANSFORMATIONS.map Prod.fst)

/-- _get_adstock_function (source lines 265-285).  An
AdstockTransformation instance is returned as is, before the kwargs
check; a string not in the registry raises the ValueError; otherwise the
DeprecationWarning is emitted when kwargs is non-empty (first component
true) and the registered class is called with the kwargs. -/
def _get_adstock_function (function : StrOrAdstock) (kwargs : Kwargs) :
    Bool × Except PyError AdstockInstance :=
  match function with
  | .adstock t => (false, .ok t)
  | .str s =>
      match ADSTOCK_TRANSFORMATIONS.lookup s with
      | none => (false, .error (.valueError (unknownAdstockMsg s)))
      | some cls => (!kwargs.isEmpty, cls.construct kwargs)

/-- numpy np.zeros(n): a vector of n zeros.  The float64 entries of
sample_curve are carried by Rat, adequate because the claims about
sample_curve involve only storing the amount and zeros, no arithmetic. -/
def npZeros (n : Nat) : List Rat := List.replicate n 0

/-- numpy np.arange(start, stop) over integers: start, start+1, ...,
stop-1. -/
def npArange (start stop : Nat) : List Nat := List.range' start (stop - start)

/-- numpy item assignment xs[i] = v: rebinds index i when it is in
bounds and raises IndexError otherwise (as x[0] = amount does on
np.zeros(0)). -/
def npSetItem (xs : List Rat) (i : Nat) (v : Rat) : Except PyError (List Rat) :=
  if i < xs.length then .ok (xs.set i v)
  else
    .error (.indexError ("index " ++ toString i ++
      " is out of bounds for axis 0 with size " ++ toString xs.length))

/-- The arguments sample_curve passes to the base helper _sample_curve
(pymc_marketing.mmm.components.base, not under src/): the variable name,
the parameters dataset (opaque type P), the input series x and the
coordinates. -/
structure SampleCurveCall (P : Type) where
  var_name : String
  parameters : P
  x : List Rat
  coords : List (String × List Nat)
deriving DecidableEq

/-- AdstockTransformation.sample_curve (source lines 96-129): builds
time_since = np.arange(0, self.l_max), the coords dict with the single
key "time since exposure", x = np.zeros(self.l_max) with x[0] = amount
(default 1.0), and calls self._sample_curve(var_name="adstock",
parameters=parameters, x=x, coords=coords).  Modelled from the spec: the
base helper _sample_curve is not under src/, so the embedding returns
the call it receives; the method body assigns no attribute, so self is
returned unchanged (state-passing translation). -/
def AdstockTransformation.sample_curve {P : Type} (self : AdstockTransformation)
    (parameters : P) (amount : Rat := 1) :
    AdstockTransformation × Except PyError (SampleCurveCall P) :=
  let time_since := npArange 0 self.l_max
  let coords := [("time since exposure", time_since)]
  match npSetItem (npZeros self.l_max) 0 amount with
  | .error e => (self, .error e)
  | .ok x =>
      (self, .ok { var_name := "adstock", parameters := parameters,
                   x := x, coords := coords })

/-- Numeric code of a ConvMode member, used to record it in a list. -/
def ConvMode.toNat : ConvMode → Nat
  | .After => 0
  | .Before => 1
  | .Overlap => 2

/-- Numeric code of a WeibullType member, used to record it in a list. -/
def WeibullType.toNat : WeibullType → Nat
  | .PDF => 0
  | .CDF => 1

/-- Recorder for geometric_adstock: returns every argument it receives,
encoded in a list. -/
def recordGeometric (x alpha : List Nat) (l : Nat) (n : Bool) (m : ConvMode) :
    List Nat :=
  x ++ alpha ++ [l, cond n 1 0, m.toNat]

/-- Recorder for delayed_adstock: returns every argument it receives,
encoded in a list. -/
def recordDelayed (x alpha theta : List Nat) (l : Nat) (n : Bool)
    (m : ConvMode) : List Nat :=
  x ++ alpha ++ theta ++ [l, cond n 1 0, m.toNat]

/-- Recorder for weibull_adstock: returns every argument it receives,
encoded in a list. -/
def recordWeibull (x lam k : List Nat) (l : Nat) (m : ConvMode)
    (ty : WeibullType) : List Nat :=
  x ++ lam ++ k ++ [l, m.toNat, ty.toNat]

/-- Observational separator for the delegation claims: a transformer
collection over List Nat whose routines return a complete encoding of
every argument they receive, so two calls return equal lists exactly
when the routines were passed identical arguments. -/
def argRecorderLib : TransformerLib (List Nat) :=
  { geometric_adstock := recordGeometric,
    delayed_adstock := recordDelayed,
    weibull_adstock := recordWeibull }

/-! Helper lemma: no constructor call of a registered class can raise a
ValueError; keyword binding raises only TypeError. -/

theorem construct_no_value_error (cls : AdstockClass) (kw : Kwargs)
    (msg : String) : cls.construct kw ≠ .error (.valueError msg) := by
  cases cls <;>
    cases hl : kw.l_max <;>
      cases hk : kw.kind <;>
        simp [AdstockClass.construct, AdstockTransformation.bindInit,
          WeibullAdstock.bindInit, hl, hk, Except.map]

/-- C1: _get_adstock_function raises a ValueError if and only if its
function argument is a string that is not a key of
ADSTOCK_TRANSFORMATIONS, and in that case the full result carries no
constructed transformation object and no warning, and the message names
the valid choices geometric, delayed and weibull.  The module itself has
no other raise: the remaining Except errors of the embedding model
Python keyword binding of a constructor call and numpy indexing, which
the iff shows never produce a ValueError. -/
theorem C1_value_error_iff_unknown_string (fn : StrOrAdstock) (kw : Kwargs) :
    ((∃ msg, (_get_adstock_function fn kw).2 = .error (.valueError msg)) ↔
      (∃ s, fn = .str s ∧ ADSTOCK_TRANSFORMATIONS.lookup s = none)) ∧
    (∀ s, fn = .str s → ADSTOCK_TRANSFORMATIONS.lookup s = none →
      _get_adstock_function fn kw =
        (false, .error (.valueError ("Unknown adstock function: " ++ s ++
          ". Choose from " ++
            pyListRepr [("geometric"), ("delayed"), ("weibull")])))) := by
  constructor
  · constructor
    · rintro ⟨msg, hmsg⟩
      cases fn with
      | adstock t => simp [_get_adstock_function] at hmsg
      | str s =>
        refine ⟨s, rfl, ?_⟩
        cases hL : ADSTOCK_TRANSFORMATIONS.lookup s with
        | none => rfl
        | some cls =>
          simp only [_get_adstock_function, hL] at hmsg
          exact absurd hmsg (construct_no_value_error cls kw msg)
    · rintro ⟨s, rfl, hL⟩
      exact ⟨unknownAdstockMsg s, by simp only [_get_adstock_function, hL]⟩
  · rintro s rfl hL
    simp only [_get_adstock_function, hL]
    rfl

/-- Witness for C1: the unknown name linear yields exactly the
ValueError listing the three registered names, with no warning. -/
theorem C1_witness :
    _get_adstock_function (.str ("linear")) {} =
      (false, .error (.valueError
        ("Unknown adstock function: linear. Choose from " ++
          pyListRepr [("geometric"), ("delayed"), ("weibull")]))) :=
  (C1_value_error_iff_unknown_string (.str ("linear")) {}).2 ("linear") rfl
    (by decide)

/-- C2 (amended): GeometricAdstock.function and DelayedAdstock.function
return exactly the corresponding routine applied to x and the parameters
with the instance's stored l_max, normalization flag and convolution
mode; WeibullAdstock.function returns weibull_adstock applied with the
stored l_max, convolution mode and kind only — its stored normalization
flag is not forwarded — for every choice of the underlying routines. -/
theorem C2_function_delegates_to_transformers (T : Type)
    (lib : TransformerLib T) (g : GeometricAdstock) (d : DelayedAdstock)
    (w : WeibullAdstock) (x alpha theta lam k : T) :
    (g.function lib x alpha).2 =
        lib.geometric_adstock x alpha g.l_max g.normalize g.mode ∧
    (d.function lib x alpha theta).2 =
        lib.delayed_adstock x alpha theta d.l_max d.normalize d.mode ∧
    (w.function lib x lam k).2 =
        lib.weibull_adstock x lam k w.l_max w.mode w.kind :=
  ⟨rfl, rfl, rfl⟩

/-- Counterexample to C2 as stated: under the routines that report every
argument they receive, two WeibullAdstock instances that differ only in
their stored normalization flag produce identical function results, so
the flag is never applied with the call; the same recorder distinguishes
the two flags through GeometricAdstock.function, which does forward it. -/
theorem C2_counterexample :
    ((WeibullAdstock.init 2 true).function argRecorderLib [1] [2] [3]).2 =
      ((WeibullAdstock.init 2 false).function argRecorderLib [1] [2] [3]).2 ∧
    (WeibullAdstock.init 2 true).normalize ≠
      (WeibullAdstock.init 2 false).normalize ∧
    (({ toAdstockTransformation := AdstockTransformation.init 2 true } :
        GeometricAdstock).function argRecorderLib [1] [2]).2 ≠
      (({ toAdstockTransformation := AdstockTransformation.init 2 false } :
        GeometricAdstock).function argRecorderLib [1] [2]).2 := by
  refine ⟨rfl, by decide, by decide⟩

/-- C3: for each concrete class, the set of parameter names of function
(excluding self and x) equals the set of keys of its default_priors
mapping. -/
theorem C3_function_params_match_default_priors :
    GeometricAdstock.function_params.toFinset =
        (GeometricAdstock.default_priors.map Prod.fst).toFinset ∧
    DelayedAdstock.function_params.toFinset =
        (DelayedAdstock.default_priors.map Prod.fst).toFinset ∧
    WeibullAdstock.function_params.toFinset =
        (WeibullAdstock.default_priors.map Prod.fst).toFinset := by
  refine ⟨?_, ?_, ?_⟩ <;> rfl

/-- C4: when the name is a key of ADSTOCK_TRANSFORMATIONS,
_get_adstock_function returns exactly the result of calling the
registered class with the given keyword arguments, and any instance so
constructed belongs to that class. -/
theorem C4_known_name_constructs_registered_class (s : String)
    (cls : AdstockClass) (kw : Kwargs)
    (h : ADSTOCK_TRANSFORMATIONS.lookup s = some cls) :
    (_get_adstock_function (.str s) kw).2 = cls.construct kw ∧
    (∀ t, cls.construct kw = .ok t → t.classOf = cls) := by
  constructor
  · simp only [_get_adstock_function, h]
  · intro t ht
    cases cls <;>
      cases hl : kw.l_max <;>
        cases hk : kw.kind <;>
          simp [AdstockClass.construct, AdstockTransformation.bindInit,
            WeibullAdstock.bindInit, hl, hk, Except.map] at ht <;>
          simp [← ht, AdstockInstance.classOf]

/-- Witness for C4: the name weibull with keyword l_max = 2 yields the
WeibullAdstock constructor call on those keyword arguments. -/
theorem C4_witness :
    (_get_adstock_function (.str ("weibull")) ({ l_max := some 2 } : Kwargs)).2 =
      AdstockClass.WeibullAdstock.construct ({ l_max := some 2 } : Kwargs) ∧
    (∀ t, AdstockClass.WeibullAdstock.construct ({ l_max := some 2 } : Kwargs) =
        .ok t → t.classOf = AdstockClass.WeibullAdstock) :=
  C4_known_name_constructs_registered_class ("weibull")
    AdstockClass.WeibullAdstock ({ l_max := some 2 } : Kwargs) (by decide)

/-- C5: ADSTOCK_TRANSFORMATIONS has exactly the three entries geometric,
delayed and weibull, in registration order, mapped to the corresponding
class objects, and every entry is keyed by its class's own lookup_name
attribute. -/
theorem C5_registry_exact :
    ADSTOCK_TRANSFORMATIONS =
      [(("geometric"), AdstockClass.GeometricAdstock),
       (("delayed"), AdstockClass.DelayedAdstock),
       (("weibull"), AdstockClass.WeibullAdstock)] ∧
    ADSTOCK_TRANSFORMATIONS.all
      (fun p => p.1 == p.2.lookup_name) = true :=
  ⟨rfl, rfl⟩

/-- C6: the default prior tables are exactly alpha Beta(alpha=1, beta=3)
for GeometricAdstock; alpha Beta(alpha=1, beta=3) and theta
HalfNormal(sigma=1) for DelayedAdstock; lam HalfNormal(sigma=1) and k
HalfNormal(sigma=1) for WeibullAdstock, each entry a family name with
its numeric hyperparameters. -/
theorem C6_default_prior_tables :
    GeometricAdstock.default_priors =
      [(("alpha"),
        { dist := "Beta", kwargs := [(("alpha"), 1), (("beta"), 3)] })] ∧
    DelayedAdstock.default_priors =
      [(("alpha"),
        { dist := "Beta", kwargs := [(("alpha"), 1), (("beta"), 3)] }),
       (("theta"), { dist := "HalfNormal", kwargs := [(("sigma"), 1)] })] ∧
    WeibullAdstock.default_priors =
      [(("lam"), { dist := "HalfNormal", kwargs := [(("sigma"), 1)] }),
       (("k"), { dist := "HalfNormal", kwargs := [(("sigma"), 1)] })] :=
  ⟨rfl, rfl, rfl⟩

/-- C7: the constructors store exactly their arguments in the descriptor
fields l_max, normalize, mode (and kind for WeibullAdstock), and the
operations of the module leave the instance unchanged: the state-passing
translations of function and sample_curve return self as the state
component, and _get_adstock_function returns a passed instance as is. -/
theorem C7_fields_stored_and_never_mutated :
    (∀ (l : Nat) (n : Bool) (m : ConvMode) (p : Option PriorMapping)
        (pf : Option String),
      (AdstockTransformation.init l n m p pf).l_max = l ∧
      (AdstockTransformation.init l n m p pf).normalize = n ∧
      (AdstockTransformation.init l n m p pf).mode = m) ∧
    (∀ (l : Nat) (n : Bool) (kd : WeibullType) (m : ConvMode)
        (p : Option PriorMapping) (pf : Option String),
      (WeibullAdstock.init l n kd m p pf).l_max = l ∧
      (WeibullAdstock.init l n kd m p pf).normalize = n ∧
      (WeibullAdstock.init l n kd m p pf).mode = m ∧
      (WeibullAdstock.init l n kd m p pf).kind = kd) ∧
    (∀ (P : Type) (self : AdstockTransformation) (params : P) (amount : Rat),
      (self.sample_curve params amount).1 = self) ∧
    (∀ (T : Type) (lib : TransformerLib T) (g : GeometricAdstock) (x a : T),
      (g.function lib x a).1 = g) ∧
    (∀ (T : Type) (lib : TransformerLib T) (d : DelayedAdstock) (x a th : T),
      (d.function lib x a th).1 = d) ∧
    (∀ (T : Type) (lib : TransformerLib T) (w : WeibullAdstock) (x lam k : T),
      (w.function lib x lam k).1 = w) ∧
    (∀ (t : AdstockInstance) (kw : Kwargs),
      (_get_adstock_function (.adstock t) kw).2 = .ok t) := by
  refine ⟨fun l n m p pf => ⟨rfl, rfl, rfl⟩,
    fun l n kd m p pf => ⟨rfl, rfl, rfl, rfl⟩, ?_,
    fun T lib g x a => rfl, fun T lib d x a th => rfl,
    fun T lib w x lam k => rfl, fun t kw => rfl⟩
  intro P self params amount
  unfold AdstockTransformation.sample_curve
  cases h : npSetItem (npZeros self.l_max) 0 amount <;> simp [h]

/-- C8: when _get_adstock_function receives an AdstockTransformation
instance, it returns that very object, emits no warning and raises no
error, whatever keyword arguments accompany it. -/
theorem C8_instance_passthrough (t : AdstockInstance) (kw : Kwargs) :
    _get_adstock_function (.adstock t) kw = (false, .ok t) := rfl

/-- C9: for l_max at least 1, sample_curve passes to the base helper a
unit-impulse series of length l_max whose first entry is the amount and
whose remaining entries are zero, with coordinate time since exposure
equal to 0, 1, ..., l_max - 1; for l_max = 0 the item assignment
x[0] = amount fails with an IndexError. -/
theorem C9_sample_curve_unit_impulse (P : Type)
    (self : AdstockTransformation) (params : P) (amount : Rat) :
    (1 ≤ self.l_max →
      (self.sample_curve params amount).2 =
        .ok { var_name := "adstock", parameters := params,
              x := amount :: List.replicate (self.l_max - 1) 0,
              coords := [(("time since exposure"),
                List.range self.l_max)] }) ∧
    (self.l_max = 0 →
      ∃ msg, (self.sample_curve params amount).2 =
        .error (.indexError msg)) := by
  constructor
  · intro h
    obtain ⟨m, hm⟩ : ∃ m, self.l_max = m + 1 :=
      ⟨self.l_max - 1, (Nat.succ_pred_eq_of_pos h).symm⟩
    simp [AdstockTransformation.sample_curve, npZeros, npSetItem, npArange,
      hm, List.replicate_succ, List.range_eq_range']
  · intro h
    refine ⟨("index 0 is out of bounds for axis 0 with size 0"), ?_⟩
    simp [AdstockTransformation.sample_curve, npZeros, npSetItem, h]
    rfl

/-- Witness for C9: with l_max = 3 and amount 2, the series is
2 followed by two zeros over times 0, 1, 2. -/
theorem C9_witness :
    ((AdstockTransformation.init 3).sample_curve () (2 : Rat)).2 =
      .ok { var_name := "adstock", parameters := (),
            x := (2 : Rat) ::
              List.replicate ((AdstockTransformation.init 3).l_max - 1) 0,
            coords := [(("time since exposure"),
              List.range (AdstockTransformation.init 3).l_max)] } :=
  (C9_sample_curve_unit_impulse Unit (AdstockTransformation.init 3) () 2).1
    (by decide)

/-- C10: _get_adstock_function emits the DeprecationWarning exactly when
called with a registered string name and a non-empty kwargs dict, and in
the registered-name case it still returns the result of the constructor
call on those keyword arguments. -/
theorem C10_deprecation_warning_iff (fn : StrOrAdstock) (kw : Kwargs) :
    ((_get_adstock_function fn kw).1 = true ↔
      (∃ s, fn = .str s ∧
        (ADSTOCK_TRANSFORMATIONS.lookup s).isSome = true ∧
        kw.isEmpty = false)) ∧
    (∀ s cls, fn = .str s → ADSTOCK_TRANSFORMATIONS.lookup s = some cls →
      (_get_adstock_function fn kw).2 = cls.construct kw) := by
  constructor
  · cases fn with
    | adstock t => simp [_get_adstock_function]
    | str s =>
      cases hL : ADSTOCK_TRANSFORMATIONS.lookup s with
      | none =>
        simp only [_get_adstock_function, hL]
        constructor
        · intro h
          exact absurd h (by simp)
        · rintro ⟨s2, hs, hsome, -⟩
          obtain rfl : s = s2 := StrOrAdstock.str.inj hs
          rw [hL] at hsome
          exact absurd hsome (by simp)
      | some cls =>
        simp only [_get_adstock_function, hL]
        constructor
        · intro h
          refine ⟨s, rfl, by rw [hL]; rfl, ?_⟩
          cases he : kw.isEmpty
          · rfl
          · rw [he] at h
            exact absurd h (by simp)
        · rintro ⟨s2, hs, -, h⟩
          rw [h]
          rfl
  · rintro s cls rfl hL
    simp only [_get_adstock_function, hL]

/-- Witness for C10: the name geometric with keyword l_max = 3 emits the
warning and returns the GeometricAdstock constructor call. -/
theorem C10_witness :
    (_get_adstock_function (.str ("geometric"))
      ({ l_max := some 3 } : Kwargs)).1 = true ∧
    (_get_adstock_function (.str ("geometric"))
      ({ l_max := some 3 } : Kwargs)).2 =
      AdstockClass.GeometricAdstock.construct ({ l_max := some 3 } : Kwargs) :=
  ⟨(C10_deprecation_warning_iff (.str ("geometric"))
      ({ l_max := some 3 } : Kwargs)).1.mpr
        ⟨("geometric"), rfl, by decide, by decide⟩,
   (C10_deprecation_warning_iff (.str ("geometric"))
      ({ l_max := some 3 } : Kwargs)).2 ("geometric")
        AdstockClass.GeometricAdstock rfl (by decide)⟩
